import Mathlib

/-!
Shallow embedding of the tiki LED sculpture firmware (src/tikiv3/tikiv3.ino,
first sketch revision, lines 1-1988) for checking the specification claims.

Modelling conventions:
* 32-bit unsigned quantities (millis, bootTime, blink timestamps) are Nat
  values taken modulo 2^32 at every arithmetic step that the C code performs
  on uint32_t, via wrap32 / add32 / sub32 below.
* C int variables (pattern, brightness, color offsets, encoder positions)
  are Int; the C truncating remainder operator on int is Int.tmod.
* The float blinkFadeBrightness_ is modelled as Rat.  The firmware only
  branches on exactly representable constants (1.0, 0.1, 0.9), which Rat
  models exactly; intermediate linear-interpolation values are never compared
  by any claim.
* Hardware calls are modelled as data: pixel-sink writes become SinkOp values
  returned alongside the new state, the random() calls become fields of an
  oracle record Rand supplied per call, ESP-NOW send / re-init results become
  Bool oracles.  The pixel color math of the rendering functions (out of the
  core per the specification, section 1) is not reproduced; rendering is
  modelled by its dispatch and its frame gate on lastUpdate, which is all the
  rendering state the main loop shares with the protocol and blink machines.
  While the device sleeps the loop returns before rendering (line 505), so
  the sleep-mode pixel-sink output is modelled completely.
-/

namespace Tiki

/-- 2^32, the modulus of uint32_t arithmetic. -/
def u32Mod : Nat := 4294967296

/-- Reduce a Nat into uint32_t range. -/
def wrap32 (a : Nat) : Nat := a % u32Mod

/-- uint32_t addition a + b. -/
def add32 (a b : Nat) : Nat := (a + b) % u32Mod

/-- uint32_t subtraction a - b (wraps around like the C code). -/
def sub32 (a b : Nat) : Nat := (a % u32Mod + u32Mod - b % u32Mod) % u32Mod

/-- The logical clock of the sync protocol: (millis() - bootTime) / 1000,
seconds since (claimed) boot, as computed at lines 117, 408, 483. -/
def logicalNow (now bootTime : Nat) : Nat := sub32 now bootTime / 1000

/-- A write to the pixel sink (the seesaw_NeoPixel strip): setPixelColor,
show, or setBrightness. -/
inductive SinkOp where
  | setPixel (index : Nat) (color : Nat)
  | stripShow
  | setBrightness (level : Int)
  deriving DecidableEq

/-- The wire entity sync_message (lines 44-49): uint32 timestamp, uint8
pattern, uint8 brightness, uint8 colorOffset. -/
structure SyncMessage where
  timestamp : Nat
  pattern : Nat
  brightness : Nat
  colorOffset : Nat
  deriving DecidableEq

/-- Oracle values for the random() calls, one field per call site. -/
structure Rand where
  /-- random(NUM_PATTERNS) at line 372 (wakeFromSleepMode). -/
  wakePattern : Nat
  /-- random(256) at line 375 (wakeFromSleepMode). -/
  wakeColor : Nat
  /-- random(2000, 10000) at line 367 (wakeFromSleepMode). -/
  wakeBlinkDelay : Nat
  /-- random(NUM_PATTERNS) at line 802 (center-button randomize). -/
  randPattern : Nat
  /-- random(256) at line 805 (center-button randomize). -/
  randColor : Nat
  /-- random(2000, 10000) at line 823 (center-button randomize). -/
  randBlinkDelay : Nat
  /-- random(2000, 10000) at line 989 (changePattern). -/
  changeBlinkDelay : Nat
  /-- random(2000, 10000) at line 630 (stale-blink recovery in loop). -/
  staleBlinkDelay : Nat
  /-- random(2000, 10000) at line 665 (invalid-blink recovery in loop). -/
  resetBlinkDelay : Nat
  /-- random(256) at line 683 (initial color in updatePattern). -/
  initColor : Nat
  /-- random(3000, 4000) at line 1334 (handleEyeBlink invalid state). -/
  hebInvalidState : Nat
  /-- random(4000, 5000) at line 1357 (handleEyeBlink invalid timing). -/
  hebInvalidTiming : Nat
  /-- random(2000, 10000) at line 1437 (handleEyeBlink blink complete). -/
  hebComplete : Nat
  deriving DecidableEq

/-- One sampling of the input peripheral: the cumulative encoder position and
the five ANO buttons, already converted from active-low reads to
pressed = true exactly as the checkInputs locals are. -/
structure Inputs where
  encoderPosition : Int
  center : Bool
  up : Bool
  down : Bool
  left : Bool
  right : Bool
  deriving DecidableEq

/-- The mutable device state: the file-scope globals of tikiv3.ino
(lines 62-93) together with the function-static variables that carry state
across calls (errorCount in broadcastSync; lastPosition, lastEncoderUpdate
and lastButtons in checkInputs; lastColorTransition and
lastBlinkCompletionCheck in loop). -/
structure DeviceState where
  currentPattern : Int
  brightness : Int
  colorPosition : Int
  baseColorOffset : Int
  targetColorOffset : Int
  useCustomColor : Bool
  initialColorSet : Bool
  lastPatternChange : Nat
  lastButtonCheck : Nat
  lastUpdate : Nat
  animationStep : Nat
  lastEyeBlink : Nat
  nextBlinkTime : Nat
  isBlinking : Bool
  blinkState : Nat
  startBlinkMs_ : Nat
  endBlinkMs_ : Nat
  blinkFadeBrightness_ : Rat
  anoAvailable : Bool
  lastSyncTime : Nat
  bootTime : Nat
  lastChangeTime : Nat
  syncPending : Bool
  fastSyncMode : Bool
  buttonPressStartTime : Nat
  buttonLongPressInProgress : Bool
  inSleepMode : Bool
  longPressHandled : Bool
  espNowInitialized : Bool
  errorCount : Nat
  lastPosition : Int
  lastEncoderUpdate : Nat
  lastButton0 : Bool
  lastButton1 : Bool
  lastButton2 : Bool
  lastButton3 : Bool
  lastButton4 : Bool
  lastColorTransition : Nat
  lastBlinkCompletionCheck : Nat
  deriving DecidableEq

/-- The self-promotion clock jump performed on every local state change
(lines 765-766, 841-842, 912-913, 935-936, 1001-1002):
currentTime = (now - bootTime) / 1000; bootTime = now - (currentTime + 2) * 1000. -/
def advanceTimestamp (now bootTime : Nat) : Nat :=
  let currentTime := sub32 now bootTime / 1000
  sub32 now (wrap32 ((currentTime + 2) * 1000))

/-- changePattern(direction), lines 965-1011. -/
def changePattern (now : Nat) (r : Rand) (direction : Int) (s : DeviceState) :
    DeviceState :=
  { s with
    animationStep := 0
    lastUpdate := now
    currentPattern := (s.currentPattern + 5 + direction).tmod 5
    baseColorOffset := s.colorPosition
    targetColorOffset := s.colorPosition
    isBlinking := false
    blinkState := 0
    blinkFadeBrightness_ := 1
    nextBlinkTime := add32 now r.changeBlinkDelay
    startBlinkMs_ := now
    endBlinkMs_ := add32 now 300
    lastPatternChange := now
    bootTime := advanceTimestamp now s.bootTime
    fastSyncMode := true
    lastChangeTime := now
    lastSyncTime := 0 }

/-- The pixel writes of the blanking loop in enterSleepMode (lines 337-340). -/
def blankPixels : List SinkOp :=
  ((List.range 36).map fun i => SinkOp.setPixel i 0) ++ [SinkOp.stripShow]

/-- enterSleepMode, lines 332-346. -/
def enterSleepMode (s : DeviceState) : DeviceState × List SinkOp :=
  ({ s with inSleepMode := true }, blankPixels)

/-- The pixel writes of the wake confirmation flash, lines 381-384:
strip.Color(255, 255, 255) packs to 16777215. -/
def whiteFlash : List SinkOp :=
  ((List.range 36).map fun i => SinkOp.setPixel i 16777215) ++ [SinkOp.stripShow]

/-- wakeFromSleepMode, lines 349-388. -/
def wakeFromSleepMode (now : Nat) (r : Rand) (s : DeviceState) :
    DeviceState × List SinkOp :=
  ({ s with
      inSleepMode := false
      lastUpdate := now
      animationStep := 0
      isBlinking := false
      blinkState := 0
      blinkFadeBrightness_ := 1
      startBlinkMs_ := now
      endBlinkMs_ := add32 now 300
      nextBlinkTime := add32 now r.wakeBlinkDelay
      currentPattern := (r.wakePattern : Int)
      colorPosition := (r.wakeColor : Int)
      targetColorOffset := (r.wakeColor : Int)
      baseColorOffset := (r.wakeColor : Int)
      useCustomColor := true }, whiteFlash)

/-- OnDataRecv, lines 105-168: the ESP-NOW receive callback.  Returns the new
state together with the pixel-sink writes it performs (setBrightness at
line 142 when the brightness field differs). -/
def onDataRecv (now : Nat) (msg : SyncMessage) (s : DeviceState) :
    DeviceState × List SinkOp :=
  let localTimestamp := sub32 now s.bootTime / 1000
  if localTimestamp < msg.timestamp then
    let s1 := { s with
      syncPending := true
      bootTime := sub32 now (wrap32 (msg.timestamp * 1000 + 50)) }
    let patternChanged : Bool := s1.currentPattern != (msg.pattern : Int)
    let s2 := if s1.currentPattern = (msg.pattern : Int) then s1 else
      { s1 with
        currentPattern := (msg.pattern : Int)
        animationStep := 0
        lastPatternChange := now }
    let brightnessChanged : Bool := s2.brightness != (msg.brightness : Int)
    let p3 := if s2.brightness = (msg.brightness : Int) then (s2, ([] : List SinkOp))
      else ({ s2 with brightness := (msg.brightness : Int) },
        [SinkOp.setBrightness (msg.brightness : Int)])
    let s3 := p3.1
    let colorChanged : Bool := s3.colorPosition != (msg.colorOffset : Int)
    let s4 := if s3.colorPosition = (msg.colorOffset : Int) then s3 else
      { s3 with
        baseColorOffset := (msg.colorOffset : Int)
        targetColorOffset := (msg.colorOffset : Int)
        colorPosition := (msg.colorOffset : Int)
        useCustomColor := true }
    let s5 := if patternChanged || brightnessChanged || colorChanged then
      { s4 with lastChangeTime := now, fastSyncMode := true } else s4
    (s5, p3.2)
  else (s, [])

/-- The sync_message that broadcastSync assembles at lines 405-414.  The
uint8 struct fields truncate the C int state variables modulo 256. -/
def mkSyncMessage (now : Nat) (s : DeviceState) : SyncMessage :=
  { timestamp := sub32 now s.bootTime / 1000
    pattern := (s.currentPattern % 256).toNat
    brightness := (s.brightness % 256).toNat
    colorOffset :=
      ((if s.useCustomColor then s.colorPosition else s.baseColorOffset) % 256).toNat }

/-- broadcastSync, lines 391-461.  sendOK is the esp_now_send result,
reinitOK the esp_now_init result inside the recovery path.  Returns the new
state, the message handed to esp_now_send (none when ESP-NOW is not
initialized and the function returns at line 401), and the number of
teardown-and-reinitialize attempts performed (the esp_now_deinit /
esp_now_init sequence at lines 437-440). -/
def broadcastSync (now : Nat) (sendOK reinitOK : Bool) (s : DeviceState) :
    DeviceState × Option SyncMessage × Nat :=
  if !s.espNowInitialized then (s, none, 0)
  else
    let msg := mkSyncMessage now s
    if sendOK then ({ s with errorCount := 0 }, some msg, 0)
    else
      let ec := (s.errorCount + 1) % 256
      if 5 ≤ ec then
        if reinitOK then ({ s with errorCount := 0 }, some msg, 1)
        else ({ s with errorCount := ec }, some msg, 1)
      else ({ s with errorCount := ec }, some msg, 0)

/-- The circular distance of the specification, section 8:
min(|a - b|, 256 - |a - b|). -/
def circularDistance (a b : Int) : Int :=
  min ((a - b).natAbs : Int) (256 - ((a - b).natAbs : Int))

/-- The distance-scaled step size of the color transition (lines 587-589):
3 beyond distance 60, 2 beyond distance 30, otherwise 1. -/
def stepFor (d : Int) : Int := if 60 < d then 3 else if 30 < d then 2 else 1

/-- The stepped color value of lines 585-612: the distance-scaled step along
the shorter arc, the C truncating percent (Int.tmod) and the two wrap fixups
of lines 611-612. -/
def colorStepValue (s : DeviceState) : Int :=
  let d0 : Int := ((s.targetColorOffset - s.baseColorOffset).natAbs : Int)
  let distance : Int := if d0 > 128 then 256 - d0 else d0
  let stepSize : Int := if distance > 60 then 3 else if distance > 30 then 2 else 1
  let b := s.baseColorOffset
  let t := s.targetColorOffset
  let b1 : Int :=
    if b < t then
      (if t - b > 128 then (b - stepSize).tmod 256 else (b + stepSize).tmod 256)
    else if t < b then
      (if b - t > 128 then (b + stepSize).tmod 256 else (b - stepSize).tmod 256)
    else b
  let b2 := if b1 ≥ 256 then 0 else b1
  if b2 < 0 then b2 + 256 else b2

/-- The color-transition block of loop, lines 562-617: one invocation of the
ColorTransitionEngine.  Skipped while a reconciliation is pending or when
base and target already agree; snaps within distance 3; otherwise steps once
per 25 ms by colorStepValue. -/
def colorTransitionTick (now : Nat) (s : DeviceState) : DeviceState :=
  if s.baseColorOffset ≠ s.targetColorOffset ∧ s.syncPending = false then
    let d0 : Int := ((s.targetColorOffset - s.baseColorOffset).natAbs : Int)
    let distance : Int := if d0 > 128 then 256 - d0 else d0
    if distance ≤ 3 then { s with baseColorOffset := s.targetColorOffset }
    else
      if sub32 now s.lastColorTransition ≥ 25 then
        { s with baseColorOffset := colorStepValue s, lastColorTransition := now }
      else s
  else s

/-- The switch statement of handleEyeBlink, lines 1361-1441: the 4-state
easing machine body.  The float constants 0.9 and 0.1 are the exact
rationals 9/10 and 1/10. -/
def handleEyeBlinkCore (now : Nat) (r : Rand) (s : DeviceState) : DeviceState :=
  match s.blinkState with
  | 0 =>
    { s with
      startBlinkMs_ := now
      endBlinkMs_ := add32 now 300
      blinkFadeBrightness_ := 1
      blinkState := 1 }
  | 1 =>
    if now < s.endBlinkMs_ then
      let blinkDuration := sub32 s.endBlinkMs_ s.startBlinkMs_
      let blinkDuration := if blinkDuration = 0 then 1 else blinkDuration
      let elapsed := if now > s.startBlinkMs_ then sub32 now s.startBlinkMs_ else 0
      let progress : Rat := (elapsed : Rat) / (blinkDuration : Rat)
      let progress := if progress < 0 then 0 else progress
      let progress := if progress > 1 then 1 else progress
      { s with blinkFadeBrightness_ := 1 - (9 / 10) * progress }
    else
      { s with
        blinkFadeBrightness_ := 1 / 10
        startBlinkMs_ := now
        endBlinkMs_ := add32 now 50
        blinkState := 2 }
  | 2 =>
    if now ≥ s.endBlinkMs_ then
      { s with
        startBlinkMs_ := now
        endBlinkMs_ := add32 now 300
        blinkState := 3 }
    else s
  | _ =>
    if now < s.endBlinkMs_ then
      let blinkDuration := sub32 s.endBlinkMs_ s.startBlinkMs_
      let blinkDuration := if blinkDuration = 0 then 1 else blinkDuration
      let elapsed := if now > s.startBlinkMs_ then sub32 now s.startBlinkMs_ else 0
      let progress : Rat := (elapsed : Rat) / (blinkDuration : Rat)
      let progress := if progress < 0 then 0 else progress
      let progress := if progress > 1 then 1 else progress
      { s with blinkFadeBrightness_ := 1 / 10 + (9 / 10) * progress }
    else
      { s with
        blinkFadeBrightness_ := 1
        blinkState := 0
        isBlinking := false
        nextBlinkTime := add32 now r.hebComplete }

/-- The final brightness clamps of handleEyeBlink, lines 1444-1445. -/
def clampFade (s : DeviceState) : DeviceState :=
  let f := s.blinkFadeBrightness_
  let f := if f < 1 / 10 then (1 / 10 : Rat) else f
  let f := if f > 1 then 1 else f
  { s with blinkFadeBrightness_ := f }

/-- handleEyeBlink, lines 1313-1446: the 4-state blink easing machine with
its two defensive resets (invalid state at line 1329, invalid timing at
line 1339), the state machine body and the final brightness clamps. -/
def handleEyeBlink (now : Nat) (r : Rand) (s : DeviceState) : DeviceState :=
  if s.blinkState > 3 then
    { s with
      blinkState := 0
      isBlinking := false
      blinkFadeBrightness_ := 1
      nextBlinkTime := add32 now r.hebInvalidState }
  else if s.endBlinkMs_ < s.startBlinkMs_ ∨ sub32 s.endBlinkMs_ s.startBlinkMs_ > 1000 ∨
      s.startBlinkMs_ > add32 now 1000 ∨ now > add32 s.endBlinkMs_ 5000 then
    { s with
      startBlinkMs_ := now
      endBlinkMs_ := add32 now 300
      blinkState := 0
      blinkFadeBrightness_ := 1
      isBlinking := false
      nextBlinkTime := add32 now r.hebInvalidTiming }
  else clampFade (handleEyeBlinkCore now r s)

/-- The five rendering functions dispatched by updatePattern (lines 694-719). -/
inductive Renderer where
  | fireEyesCustom
  | gentleRainbowCustom
  | breathingCustom
  | gradientTeeth
  | colorWave
  deriving DecidableEq

/-- The switch on currentPattern in updatePattern, lines 694-719: cases 0-4
plus the default fallback to fireEyesPatternCustom. -/
def dispatchPattern (p : Int) : Renderer :=
  if p = 0 then .fireEyesCustom
  else if p = 1 then .gentleRainbowCustom
  else if p = 2 then .breathingCustom
  else if p = 3 then .gradientTeeth
  else if p = 4 then .colorWave
  else .fireEyesCustom

/-- The wait argument each updatePattern case passes to its renderer
(lines 697-713). -/
def rendererWait : Renderer → Nat
  | .fireEyesCustom => 50
  | .gentleRainbowCustom => 60
  | .breathingCustom => 30
  | .gradientTeeth => 40
  | .colorWave => 30

/-- updatePattern, lines 679-720: the one-time random initial color
(lines 681-691) followed by the renderer dispatch.  Every dispatched
renderer begins with the same frame gate (when now - lastUpdate < wait it
returns untouched, otherwise it sets lastUpdate = now) and then writes only
pixels and renderer-local statics; the pixel color math is outside the
modelled core. -/
def updatePattern (now : Nat) (r : Rand) (s : DeviceState) : DeviceState :=
  let s := if !s.initialColorSet then
    { s with
      colorPosition := (r.initColor : Int)
      baseColorOffset := (r.initColor : Int)
      targetColorOffset := (r.initColor : Int)
      useCustomColor := true
      initialColorSet := true } else s
  let rend := dispatchPattern s.currentPattern
  if sub32 now s.lastUpdate < rendererWait rend then s
  else { s with lastUpdate := now }

/-- The encoder handling of checkInputs, lines 740-777.  No pixel-sink
writes; the clock jump and fast-mode entry are rate limited to one per
500 ms by lastEncoderUpdate. -/
def encoderStep (now : Nat) (inp : Inputs) (s : DeviceState) : DeviceState :=
  if inp.encoderPosition ≠ s.lastPosition then
    let change := inp.encoderPosition - s.lastPosition
    let cp0 := (s.colorPosition + change).tmod 256
    let cp := if cp0 < 0 then cp0 + 256 else cp0
    let s := { s with
      colorPosition := cp
      lastPosition := inp.encoderPosition
      targetColorOffset := cp
      baseColorOffset := cp
      useCustomColor := true }
    if sub32 now s.lastEncoderUpdate > 500 then
      { s with
        bootTime := advanceTimestamp now s.bootTime
        lastEncoderUpdate := now
        fastSyncMode := true
        lastChangeTime := now
        lastSyncTime := sub32 now 900 }
    else s
  else s

/-- The center-button press-edge branch of checkInputs, lines 786-852:
immediate wake when asleep, otherwise randomize pattern and color, reset the
blink machine, jump the clock and enter fast sync mode. -/
def centerPressStep (now : Nat) (inp : Inputs) (r : Rand) (s : DeviceState) :
    DeviceState × List SinkOp :=
  if inp.center && !s.lastButton0 then
    let s := { s with buttonLongPressInProgress := true, buttonPressStartTime := now }
    if s.inSleepMode then
      let p := wakeFromSleepMode now r s
      ({ p.1 with longPressHandled := false }, p.2)
    else
      ({ s with
          currentPattern := (r.randPattern : Int)
          colorPosition := (r.randColor : Int)
          targetColorOffset := (r.randColor : Int)
          baseColorOffset := (r.randColor : Int)
          useCustomColor := true
          animationStep := 0
          lastUpdate := now
          isBlinking := false
          blinkState := 0
          blinkFadeBrightness_ := 1
          nextBlinkTime := add32 now r.randBlinkDelay
          startBlinkMs_ := now
          endBlinkMs_ := add32 now 300
          lastPatternChange := now
          bootTime := advanceTimestamp now s.bootTime
          fastSyncMode := true
          lastChangeTime := now
          lastSyncTime := 0 }, [])
  else (s, [])

/-- The center-button hold and release tracking of checkInputs,
lines 857-898: one sleep or wake toggle per long press, guarded by
longPressHandled; release clears the tracking flags. -/
def centerHoldStep (now : Nat) (inp : Inputs) (r : Rand) (s : DeviceState) :
    DeviceState × List SinkOp :=
  if inp.center then
    let s := if !s.buttonLongPressInProgress then
      { s with
        buttonLongPressInProgress := true
        buttonPressStartTime := now
        longPressHandled := false } else s
    if s.buttonLongPressInProgress && !s.longPressHandled &&
        decide (sub32 now s.buttonPressStartTime ≥ 2000) then
      let s := { s with longPressHandled := true }
      if s.inSleepMode then wakeFromSleepMode now r s
      else enterSleepMode s
    else (s, [])
  else if s.buttonLongPressInProgress then
    ({ s with buttonLongPressInProgress := false, longPressHandled := false }, [])
  else (s, [])

/-- Arduino constrain(x, lo, hi). -/
def constrain (x lo hi : Int) : Int := if x < lo then lo else if x > hi then hi else x

/-- The up-button branch of checkInputs, lines 903-922: brightness up by 25
(clamped to 10..255), strip.setBrightness, clock jump, fast sync mode. -/
def upButtonStep (now : Nat) (inp : Inputs) (s : DeviceState) :
    DeviceState × List SinkOp :=
  if inp.up && !s.lastButton1 then
    let b := constrain (s.brightness + 25) 10 255
    ({ s with
        brightness := b
        bootTime := advanceTimestamp now s.bootTime
        fastSyncMode := true
        lastChangeTime := now
        lastSyncTime := 0 }, [SinkOp.setBrightness b])
  else (s, [])

/-- The down-button branch of checkInputs, lines 926-945. -/
def downButtonStep (now : Nat) (inp : Inputs) (s : DeviceState) :
    DeviceState × List SinkOp :=
  if inp.down && !s.lastButton2 then
    let b := constrain (s.brightness - 25) 10 255
    ({ s with
        brightness := b
        bootTime := advanceTimestamp now s.bootTime
        fastSyncMode := true
        lastChangeTime := now
        lastSyncTime := 0 }, [SinkOp.setBrightness b])
  else (s, [])

/-- The button section of checkInputs, lines 780-962: center press edge,
center hold and release tracking, the up/down brightness buttons and the
left/right pattern buttons, with each lastButtons slot updated after its
branch. -/
def buttonsStep (now : Nat) (inp : Inputs) (r : Rand) (s : DeviceState) :
    DeviceState × List SinkOp :=
  let p1 := centerPressStep now inp r s
  let p2 := centerHoldStep now inp r p1.1
  let s := { p2.1 with lastButton0 := inp.center }
  let p3 := upButtonStep now inp s
  let s := { p3.1 with lastButton1 := inp.up }
  let p4 := downButtonStep now inp s
  let s := { p4.1 with lastButton2 := inp.down }
  let s := if inp.left && !s.lastButton3 then changePattern now r (-1) s else s
  let s := { s with lastButton3 := inp.left }
  let s := if inp.right && !s.lastButton4 then changePattern now r 1 s else s
  let s := { s with lastButton4 := inp.right }
  (s, p1.2 ++ p2.2 ++ p3.2 ++ p4.2)

/-- checkInputs, lines 722-963: the availability guard, the encoder
handling, then the button section. -/
def checkInputs (now : Nat) (inp : Inputs) (r : Rand) (s : DeviceState) :
    DeviceState × List SinkOp :=
  if !s.anoAvailable then (s, [])
  else buttonsStep now inp r (encoderStep now inp s)

/-- The button poll gate of loop, lines 467-480: checkInputs runs at most
every 50 ms and only with the input peripheral present. -/
def buttonPoll (now : Nat) (inp : Inputs) (r : Rand) (s : DeviceState) :
    DeviceState × List SinkOp :=
  if s.anoAvailable && decide (sub32 now s.lastButtonCheck ≥ 50) then
    let p := checkInputs now inp r s
    ({ p.1 with lastButtonCheck := now }, p.2)
  else (s, [])

/-- The fast-mode expiry of loop (lines 490-493 asleep, 513-516 awake):
fast sync mode ends 30 seconds after the last change. -/
def fastModeExpire (now : Nat) (s : DeviceState) : DeviceState :=
  if s.fastSyncMode && decide (sub32 now s.lastChangeTime > 30000) then
    { s with fastSyncMode := false }
  else s

/-- The body shared by both syncPending reset sites (lines 497-501 asleep,
545-549 awake): the flag clears once the next broadcast opportunity has
been reached. -/
def syncPendingClear (now syncInterval millisInCurrentSecond : Nat)
    (s : DeviceState) : DeviceState :=
  if s.fastSyncMode && decide (sub32 now s.lastSyncTime ≥ syncInterval) then
    { s with syncPending := false }
  else if !s.fastSyncMode && decide (millisInCurrentSecond ≥ 100) then
    { s with syncPending := false }
  else s

/-- The broadcast windows of loop, lines 521-541: in fast mode broadcast
whenever the interval elapsed, in normal mode only in the first 100 ms of
each logical second; without ESP-NOW just pace lastSyncTime. -/
def broadcastWindow (now syncInterval millisInCurrentSecond : Nat)
    (sendOK reinitOK : Bool) (s : DeviceState) : DeviceState :=
  if s.espNowInitialized then
    if s.fastSyncMode then
      if decide (sub32 now s.lastSyncTime ≥ syncInterval) && !s.syncPending then
        { (broadcastSync now sendOK reinitOK s).1 with lastSyncTime := now }
      else s
    else
      if decide (millisInCurrentSecond < 100) &&
          decide (sub32 now s.lastSyncTime ≥ syncInterval) && !s.syncPending then
        { (broadcastSync now sendOK reinitOK s).1 with lastSyncTime := now }
      else s
  else
    if sub32 now s.lastSyncTime ≥ 10000 then { s with lastSyncTime := now } else s

/-- The sleeping remainder of loop, lines 483-506: fast-mode expiry and
syncPending bookkeeping, then the early return before any rendering.
syncInterval is read from fastSyncMode at line 485, before the expiry at
line 490 can clear it. -/
def sleepTickRest (now : Nat) (s : DeviceState) : DeviceState :=
  let millisInCurrentSecond := sub32 now s.bootTime % 1000
  let syncInterval : Nat := if s.fastSyncMode then 100 else 1000
  let s1 := fastModeExpire now s
  if s1.syncPending && s1.espNowInitialized then
    syncPendingClear now syncInterval millisInCurrentSecond s1
  else s1

/-- The awake sync section of loop, lines 483-550: syncInterval computed at
line 485 from the fast mode before expiry, fast-mode expiry, the two
broadcast windows, and the syncPending reset. -/
def awakeSyncSection (now : Nat) (sendOK reinitOK : Bool) (s : DeviceState) :
    DeviceState :=
  let millisInCurrentSecond := sub32 now s.bootTime % 1000
  let syncInterval : Nat := if s.fastSyncMode then 100 else 1000
  let s1 := broadcastWindow now syncInterval millisInCurrentSecond sendOK reinitOK
    (fastModeExpire now s)
  if s1.syncPending then
    syncPendingClear now syncInterval millisInCurrentSecond s1
  else s1

/-- The automatic pattern cycling without the input peripheral,
lines 553-560. -/
def autoCycle (now : Nat) (s : DeviceState) : DeviceState :=
  if !s.anoAvailable && decide (sub32 now s.lastPatternChange ≥ 15000) then
    { s with
      currentPattern := (s.currentPattern + 1).tmod 5
      animationStep := 0
      lastPatternChange := now }
  else s

/-- The periodic stale-blink safety check of loop, lines 619-632. -/
def staleBlinkCheck (now : Nat) (r : Rand) (s : DeviceState) : DeviceState :=
  if sub32 now s.lastBlinkCompletionCheck > 200 then
    let s := { s with lastBlinkCompletionCheck := now }
    if s.isBlinking && decide (now > add32 s.endBlinkMs_ 2000) then
      { s with
        isBlinking := false
        blinkState := 0
        blinkFadeBrightness_ := 1
        nextBlinkTime := add32 now r.staleBlinkDelay }
    else s
  else s

/-- Starting a new blink when idle and due, lines 635-648. -/
def maybeStartBlink (now : Nat) (s : DeviceState) : DeviceState :=
  if !s.isBlinking && decide (now ≥ s.nextBlinkTime) then
    { s with
      isBlinking := true
      blinkState := 0
      lastEyeBlink := now
      startBlinkMs_ := now
      endBlinkMs_ := add32 now 300
      blinkFadeBrightness_ := 1 }
  else s

/-- The invalid-blink guard followed by the blink machine, lines 655-674. -/
def blinkGuard (now : Nat) (r : Rand) (s : DeviceState) : DeviceState :=
  if s.isBlinking && (decide (s.blinkState > 3) ||
      decide (s.startBlinkMs_ > add32 now 1000) ||
      decide (s.endBlinkMs_ < s.startBlinkMs_) ||
      decide (now > add32 s.endBlinkMs_ 10000)) then
    { s with
      isBlinking := false
      blinkState := 0
      blinkFadeBrightness_ := 1
      nextBlinkTime := add32 now r.resetBlinkDelay }
  else if s.isBlinking then handleEyeBlink now r s
  else s

/-- One pass of loop(), lines 463-677, composed from the stages above in
source order.  now is millis(); inp the sampled input peripheral; r the
random oracle; sendOK / reinitOK the ESP-NOW oracles.  Returns the new
state and the pixel-sink writes performed (the pixel output of the awake
rendering pass is outside the modelled core; a sleeping pass returns at
line 505 before rendering, so its sink output is complete). -/
def loopTick (now : Nat) (inp : Inputs) (r : Rand) (sendOK reinitOK : Bool)
    (s : DeviceState) : DeviceState × List SinkOp :=
  let p0 := buttonPoll now inp r s
  if p0.1.inSleepMode then (sleepTickRest now p0.1, p0.2)
  else
    let s := awakeSyncSection now sendOK reinitOK p0.1
    let s := autoCycle now s
    let s := colorTransitionTick now s
    let s := staleBlinkCheck now r s
    let s := maybeStartBlink now s
    let s := updatePattern now r s
    let s := blinkGuard now r s
    (s, p0.2)

/-- The two entry points that touch DeviceState at run time: a polling pass
of loop() and an asynchronous ESP-NOW receive callback. -/
inductive Event where
  | tick (now : Nat) (inp : Inputs) (r : Rand) (sendOK reinitOK : Bool)
  | recv (now : Nat) (msg : SyncMessage)

/-- Process one event. -/
def stepEvent (e : Event) (s : DeviceState) : DeviceState × List SinkOp :=
  match e with
  | .tick now inp r sendOK reinitOK => loopTick now inp r sendOK reinitOK s
  | .recv now msg => onDataRecv now msg s

/-- Process a sequence of events, concatenating the pixel-sink writes. -/
def processEvents : List Event → DeviceState → DeviceState × List SinkOp
  | [], s => (s, [])
  | e :: es, s =>
    let p := stepEvent e s
    let q := processEvents es p.1
    (q.1, p.2 ++ q.2)

/-- The device stays in sleep mode across every event of the list. -/
def asleepThroughout : List Event → DeviceState → Bool
  | [], _ => true
  | e :: es, s =>
    (stepEvent e s).1.inSleepMode && asleepThroughout es (stepEvent e s).1

/-- A pixel-sink write that only adjusts the global brightness scalar. -/
def isBrightnessOnly : SinkOp → Bool
  | .setBrightness _ => true
  | _ => false

/-- Round n up to a multiple of the alignment a. -/
def alignUp (n a : Nat) : Nat := (n + a - 1) / a * a

/-- The members of struct sync_message (lines 44-49) as (size, alignment)
pairs under the ESP32 C ABI: uint32_t is 4 bytes aligned to 4, uint8_t is
1 byte aligned to 1.  The struct carries no packing attribute. -/
def syncMessageMembers : List (Nat × Nat) := [(4, 4), (1, 1), (1, 1), (1, 1)]

/-- The byte offsets the C layout rules assign to the members. -/
def fieldOffsets (ms : List (Nat × Nat)) : List Nat :=
  (ms.foldl (fun acc m =>
    let off := alignUp acc.2 m.2
    (acc.1 ++ [off], off + m.1)) (([] : List Nat), 0)).1

/-- The alignment of the whole struct: the largest member alignment. -/
def structAlign (ms : List (Nat × Nat)) : Nat := ms.foldl (fun a m => max a m.2) 1

/-- sizeof of the struct: the end of the last member rounded up to the
struct alignment. -/
def structSize (ms : List (Nat × Nat)) : Nat :=
  alignUp (ms.foldl (fun off m => alignUp off m.2 + m.1) 0) (structAlign ms)

/-- sizeof(sync_message), the byte count esp_now_send transmits at line 422. -/
def sizeofSyncMessage : Nat := structSize syncMessageMembers

/-- A uint32 value as four little-endian bytes. -/
def le32 (x : Nat) : List Nat :=
  [x % 256, x / 256 % 256, x / 65536 % 256, x / 16777216 % 256]

/-- The datagram broadcastSync hands to esp_now_send: sizeof(sync_message)
bytes, each member at its ABI offset in little-endian order, and the
trailing padding zeroed by the memset at line 405. -/
def serializeSyncMessage (m : SyncMessage) : List Nat :=
  le32 (m.timestamp % u32Mod) ++
    [m.pattern % 256, m.brightness % 256, m.colorOffset % 256] ++
    List.replicate (sizeofSyncMessage - 7) 0

/-- Iterated failing sends: n calls of broadcastSync whose esp_now_send all
fail, accumulating the teardown-and-reinitialize attempt count. -/
def broadcastFailures : Nat → Nat → Bool → DeviceState → DeviceState × Nat
  | 0, _, _, s => (s, 0)
  | n + 1, now, reinitOK, s =>
    let p := broadcastSync now false reinitOK s
    let q := broadcastFailures n now reinitOK p.1
    (q.1, p.2.2 + q.2)

/-- The fields of the BlinkStateMachine, bundled for frame lemmas. -/
def blinkView (s : DeviceState) : Bool × Nat × Rat × Nat × Nat × Nat :=
  (s.isBlinking, s.blinkState, s.blinkFadeBrightness_,
   s.nextBlinkTime, s.startBlinkMs_, s.endBlinkMs_)

/-- A concrete device state used by the witness and counterexample
theorems: the power-on values of the globals (lines 62-93) except that the
input peripheral and ESP-NOW are up, the initial color was already chosen,
and the first blink is scheduled at 100000 ms. -/
def baseState : DeviceState where
  currentPattern := 0
  brightness := 255
  colorPosition := 0
  baseColorOffset := 0
  targetColorOffset := 0
  useCustomColor := false
  initialColorSet := true
  lastPatternChange := 0
  lastButtonCheck := 0
  lastUpdate := 0
  animationStep := 0
  lastEyeBlink := 0
  nextBlinkTime := 100000
  isBlinking := false
  blinkState := 0
  startBlinkMs_ := 0
  endBlinkMs_ := 300
  blinkFadeBrightness_ := 1
  anoAvailable := true
  lastSyncTime := 0
  bootTime := 0
  lastChangeTime := 0
  syncPending := false
  fastSyncMode := false
  buttonPressStartTime := 0
  buttonLongPressInProgress := false
  inSleepMode := false
  longPressHandled := false
  espNowInitialized := true
  errorCount := 0
  lastPosition := 0
  lastEncoderUpdate := 0
  lastButton0 := false
  lastButton1 := false
  lastButton2 := false
  lastButton3 := false
  lastButton4 := false
  lastColorTransition := 0
  lastBlinkCompletionCheck := 0

/-- Concrete random oracle values, each inside the range of its random()
call site. -/
def baseRand : Rand where
  wakePattern := 2
  wakeColor := 30
  wakeBlinkDelay := 5000
  randPattern := 3
  randColor := 40
  randBlinkDelay := 4000
  changeBlinkDelay := 3000
  staleBlinkDelay := 2500
  resetBlinkDelay := 2600
  initColor := 77
  hebInvalidState := 3500
  hebInvalidTiming := 4500
  hebComplete := 6000

/-- The all-idle input sample: no button pressed, encoder unmoved. -/
def idleInputs : Inputs where
  encoderPosition := 0
  center := false
  up := false
  down := false
  left := false
  right := false

theorem sub32_self (a : Nat) : sub32 a a = 0 := by
  simp only [sub32, u32Mod]
  omega

theorem add32_eq_of_lt {a b : Nat} (h : a + b < u32Mod) : add32 a b = a + b := by
  simp only [add32, u32Mod] at h ⊢
  omega

theorem lt_add32_right {a b : Nat} (hb : 0 < b) (h : a + b < u32Mod) :
    a < add32 a b := by
  rw [add32_eq_of_lt h]
  omega

/-- Undoing a uint32 subtraction from now recovers the subtrahend modulo
2^32: the arithmetic core of both the clock jump and reconciliation. -/
theorem sub32_sub32_cancel (a x : Nat) : sub32 a (sub32 a x) = x % u32Mod := by
  simp only [sub32, u32Mod]
  omega

/-- The clock jump advances the logical clock by exactly two seconds as long
as the re-derived millisecond count does not overflow uint32. -/
theorem logicalNow_advanceTimestamp (now bt : Nat)
    (h : (logicalNow now bt + 2) * 1000 < u32Mod) :
    logicalNow now (advanceTimestamp now bt) = logicalNow now bt + 2 := by
  have hx : advanceTimestamp now bt = sub32 now ((logicalNow now bt + 2) * 1000) := by
    simp only [advanceTimestamp, logicalNow, sub32, wrap32, u32Mod]
    omega
  rw [logicalNow, hx, sub32_sub32_cancel, Nat.mod_eq_of_lt h, logicalNow]
  omega

theorem tmod256_small_neg (x : Int) (h0 : -256 < x) (h1 : x < 0) :
    x.tmod 256 = x := by
  have h2 : (-x).tdiv 256 = 0 := Int.tdiv_eq_zero_of_lt (by omega) (by omega)
  have h4 := Int.neg_tdiv (-x) 256
  rw [Int.neg_neg] at h4
  rw [Int.tmod_def, h4, h2]
  simp

/-- The truncating C remainder by 256 on the value range the color code
produces, phrased through the Euclidean remainder that omega understands. -/
theorem tmod256_cases (x : Int) (h0 : -256 < x) :
    x.tmod 256 = if x < 0 then x else x % 256 := by
  split
  · exact tmod256_small_neg x h0 (by omega)
  · exact Int.tmod_eq_emod (by omega) (by omega)

/-- C3 counterexample: the broadcast datagram is sizeof(sync_message) = 8
bytes, because the unpacked struct gets one byte of trailing alignment
padding after its 7 data bytes; the claimed length 7 is wrong already for
the all-zero message. -/
theorem wire_size_counterexample :
    (serializeSyncMessage ⟨0, 0, 0, 0⟩).length ≠ 7 ∧
    (serializeSyncMessage ⟨0, 0, 0, 0⟩).length = 8 ∧
    sizeofSyncMessage = 8 := by decide

/-- C3 (amended): the broadcast datagram is exactly 8 bytes, the 7 data
bytes plus one byte of trailing padding zeroed by the memset; the uint32
timestamp sits little-endian at offset 0, pattern at offset 4, brightness
at offset 5 and the hue colorOffset at offset 6, as the C layout of
sync_message prescribes. -/
theorem wire_layout (m : SyncMessage) (ht : m.timestamp < u32Mod)
    (hp : m.pattern < 256) (hb : m.brightness < 256) (hc : m.colorOffset < 256) :
    (serializeSyncMessage m).length = 8 ∧
    fieldOffsets syncMessageMembers = [0, 4, 5, 6] ∧
    (serializeSyncMessage m).getD 0 0 + 256 * (serializeSyncMessage m).getD 1 0 +
      65536 * (serializeSyncMessage m).getD 2 0 +
      16777216 * (serializeSyncMessage m).getD 3 0 = m.timestamp ∧
    (serializeSyncMessage m).getD 4 0 = m.pattern ∧
    (serializeSyncMessage m).getD 5 0 = m.brightness ∧
    (serializeSyncMessage m).getD 6 0 = m.colorOffset ∧
    (serializeSyncMessage m).getD 7 0 = 0 := by
  have hsz : sizeofSyncMessage - 7 = 1 := by decide
  simp only [u32Mod] at ht
  simp only [serializeSyncMessage, le32, hsz, u32Mod, List.replicate,
    List.cons_append, List.nil_append, List.getD_cons_zero, List.getD_cons_succ,
    List.length_cons, List.length_nil]
  refine ⟨trivial, by decide, by omega, by omega, by omega, by omega, trivial⟩

/-- C3 witness: the layout theorem applied to a concrete in-range message. -/
theorem wire_layout_witness :
    (serializeSyncMessage ⟨258, 3, 200, 9⟩).length = 8 ∧
    (serializeSyncMessage ⟨258, 3, 200, 9⟩).getD 0 0 +
      256 * (serializeSyncMessage ⟨258, 3, 200, 9⟩).getD 1 0 +
      65536 * (serializeSyncMessage ⟨258, 3, 200, 9⟩).getD 2 0 +
      16777216 * (serializeSyncMessage ⟨258, 3, 200, 9⟩).getD 3 0 = 258 ∧
    (serializeSyncMessage ⟨258, 3, 200, 9⟩).getD 4 0 = 3 ∧
    (serializeSyncMessage ⟨258, 3, 200, 9⟩).getD 5 0 = 200 ∧
    (serializeSyncMessage ⟨258, 3, 200, 9⟩).getD 6 0 = 9 := by
  have h := wire_layout ⟨258, 3, 200, 9⟩ (by decide) (by decide) (by decide) (by decide)
  exact ⟨h.1, h.2.2.1, h.2.2.2.1, h.2.2.2.2.1, h.2.2.2.2.2.1⟩

/-- C9: broadcast send failures are counted consecutively, any success
resets the counter to zero without a recovery attempt, the first four
consecutive failures trigger no teardown-and-reinitialize attempt, and five
consecutive failures trigger exactly one. -/
theorem send_failure_recovery (now : Nat) (reinitOK : Bool) (s : DeviceState)
    (hinit : s.espNowInitialized = true) (hec : s.errorCount = 0) :
    (broadcastFailures 5 now reinitOK s).2 = 1 ∧
    (broadcastFailures 4 now reinitOK s).2 = 0 ∧
    (∀ t : DeviceState, t.espNowInitialized = true →
      (broadcastSync now true reinitOK t).1.errorCount = 0 ∧
      (broadcastSync now true reinitOK t).2.2 = 0) := by
  refine ⟨?_, ?_, ?_⟩
  · cases reinitOK <;> simp [broadcastFailures, broadcastSync, hinit, hec]
  · cases reinitOK <;> simp [broadcastFailures, broadcastSync, hinit, hec]
  · intro t htinit
    simp [broadcastSync, htinit]

/-- C9 witness: five consecutive failing sends from a fresh transport
trigger exactly one reinitialization attempt; four trigger none; a
successful send clears the counter. -/
theorem send_failure_recovery_witness :
    (broadcastFailures 5 1000 false baseState).2 = 1 ∧
    (broadcastFailures 4 1000 false baseState).2 = 0 ∧
    (broadcastSync 1000 true false baseState).1.errorCount = 0 := by
  have h := send_failure_recovery 1000 false baseState (by decide) (by decide)
  exact ⟨h.1, h.2.1, (h.2.2 baseState (by decide)).1⟩

/-- Shared shape of a winning reconciliation: field values of the state
OnDataRecv leaves behind when the received timestamp beats the local clock. -/
theorem onDataRecv_win_fields (now : Nat) (msg : SyncMessage) (s : DeviceState)
    (h : sub32 now s.bootTime / 1000 < msg.timestamp) :
    (onDataRecv now msg s).1.currentPattern = (msg.pattern : Int) ∧
    (onDataRecv now msg s).1.brightness = (msg.brightness : Int) ∧
    (onDataRecv now msg s).1.colorPosition = (msg.colorOffset : Int) ∧
    (s.colorPosition ≠ (msg.colorOffset : Int) →
      (onDataRecv now msg s).1.baseColorOffset = (msg.colorOffset : Int) ∧
      (onDataRecv now msg s).1.targetColorOffset = (msg.colorOffset : Int)) ∧
    (s.colorPosition = (msg.colorOffset : Int) →
      (onDataRecv now msg s).1.baseColorOffset = s.baseColorOffset ∧
      (onDataRecv now msg s).1.targetColorOffset = s.targetColorOffset) := by
  simp only [onDataRecv]
  rw [if_pos h]
  split_ifs <;> simp_all

/-- C10: reconciliation adopts the received pattern byte without range
validation; the rendering dispatch maps every pattern at or above
NUM_PATTERNS = 5 to the fire-eyes fallback of the default case; and the next
local pattern change renormalizes the pattern into 0..4 modulo
NUM_PATTERNS. -/
theorem pattern_range_tolerance :
    (∀ (now : Nat) (msg : SyncMessage) (s : DeviceState),
        sub32 now s.bootTime / 1000 < msg.timestamp →
        (onDataRecv now msg s).1.currentPattern = (msg.pattern : Int)) ∧
    (∀ p : Int, 5 ≤ p → dispatchPattern p = Renderer.fireEyesCustom) ∧
    (∀ (now : Nat) (r : Rand) (d : Int) (s : DeviceState), d = 1 ∨ d = -1 →
        0 ≤ s.currentPattern →
        0 ≤ (changePattern now r d s).currentPattern ∧
        (changePattern now r d s).currentPattern < 5) := by
  refine ⟨fun now msg s h => (onDataRecv_win_fields now msg s h).1, ?_, ?_⟩
  · intro p hp
    simp only [dispatchPattern]
    split_ifs <;> first | omega | rfl
  · intro now r d s hd h0
    simp only [changePattern]
    rw [Int.tmod_eq_emod (by omega) (by omega)]
    exact ⟨Int.emod_nonneg _ (by omega), Int.emod_lt_of_pos _ (by omega)⟩

/-- C10 witness: a winning sync carrying pattern byte 200 is adopted as-is,
pattern 200 dispatches to the fire-eyes fallback, and the next left or right
button press renormalizes it below 5. -/
theorem pattern_range_tolerance_witness :
    (onDataRecv 0 ⟨9, 200, 255, 0⟩ baseState).1.currentPattern = 200 ∧
    dispatchPattern 200 = Renderer.fireEyesCustom ∧
    0 ≤ (changePattern 0 baseRand 1 (onDataRecv 0 ⟨9, 200, 255, 0⟩ baseState).1).currentPattern ∧
    (changePattern 0 baseRand 1 (onDataRecv 0 ⟨9, 200, 255, 0⟩ baseState).1).currentPattern < 5 := by
  have h := pattern_range_tolerance
  have h3 := h.2.2 0 baseRand 1 (onDataRecv 0 ⟨9, 200, 255, 0⟩ baseState).1
    (Or.inl rfl) (by decide)
  exact ⟨h.1 0 ⟨9, 200, 255, 0⟩ baseState (by decide), h.2.1 200 (by decide),
    h3.1, h3.2⟩

/-- C1: a received sync message whose timestamp is strictly ahead of the
local logical clock overwrites pattern, brightness and hue, collapsing the
hue immediately (baseColorOffset, targetColorOffset and colorPosition all
become the received hue); a message at or behind the local clock changes
nothing and produces no pixel-sink write.  The two color-invariant
hypotheses hold in every reachable state: every write site of the firmware
assigns baseColorOffset and targetColorOffset from colorPosition. -/
theorem timestamp_wins_reconciliation (now : Nat) (msg : SyncMessage)
    (s : DeviceState)
    (hbase : s.baseColorOffset = s.colorPosition)
    (htarget : s.targetColorOffset = s.colorPosition) :
    (sub32 now s.bootTime / 1000 < msg.timestamp →
      (onDataRecv now msg s).1.currentPattern = (msg.pattern : Int) ∧
      (onDataRecv now msg s).1.brightness = (msg.brightness : Int) ∧
      (onDataRecv now msg s).1.baseColorOffset = (msg.colorOffset : Int) ∧
      (onDataRecv now msg s).1.targetColorOffset = (msg.colorOffset : Int) ∧
      (onDataRecv now msg s).1.colorPosition = (msg.colorOffset : Int)) ∧
    (msg.timestamp ≤ sub32 now s.bootTime / 1000 →
      onDataRecv now msg s = (s, [])) := by
  constructor
  · intro h
    obtain ⟨h1, h2, h3, h4, h5⟩ := onDataRecv_win_fields now msg s h
    by_cases hc : s.colorPosition = (msg.colorOffset : Int)
    · obtain ⟨hb, ht⟩ := h5 hc
      rw [hbase, hc] at hb
      rw [htarget, hc] at ht
      exact ⟨h1, h2, hb, ht, h3⟩
    · obtain ⟨hb, ht⟩ := h4 hc
      exact ⟨h1, h2, hb, ht, h3⟩
  · intro h
    simp only [onDataRecv]
    rw [if_neg (by omega)]

/-- C1 witness: from the power-on state (logical clock 5 at 5000 ms) a
message stamped 100 overwrites everything and collapses the hue; a message
stamped 3 changes nothing. -/
theorem timestamp_wins_reconciliation_witness :
    (onDataRecv 5000 ⟨100, 7, 30, 40⟩ baseState).1.currentPattern = 7 ∧
    (onDataRecv 5000 ⟨100, 7, 30, 40⟩ baseState).1.brightness = 30 ∧
    (onDataRecv 5000 ⟨100, 7, 30, 40⟩ baseState).1.baseColorOffset = 40 ∧
    (onDataRecv 5000 ⟨100, 7, 30, 40⟩ baseState).1.targetColorOffset = 40 ∧
    (onDataRecv 5000 ⟨100, 7, 30, 40⟩ baseState).1.colorPosition = 40 ∧
    onDataRecv 5000 ⟨3, 7, 30, 40⟩ baseState = (baseState, []) := by
  have h := timestamp_wins_reconciliation 5000 ⟨100, 7, 30, 40⟩ baseState rfl rfl
  have h2 := timestamp_wins_reconciliation 5000 ⟨3, 7, 30, 40⟩ baseState rfl rfl
  obtain ⟨a, b, c, d, e⟩ := h.1 (by decide)
  exact ⟨a, b, c, d, e, h2.2 (by decide)⟩

/-- C5: whenever current and target hue are distinct values of the 256-ring
at circular distance at most 3 and no reconciliation is pending, one
color-transition tick snaps current exactly onto target. -/
theorem snap_correctness (now : Nat) (s : DeviceState)
    (hb0 : 0 ≤ s.baseColorOffset) (hb1 : s.baseColorOffset < 256)
    (ht0 : 0 ≤ s.targetColorOffset) (ht1 : s.targetColorOffset < 256)
    (hne : s.baseColorOffset ≠ s.targetColorOffset)
    (hd : circularDistance s.baseColorOffset s.targetColorOffset ≤ 3)
    (hsp : s.syncPending = false) :
    (colorTransitionTick now s).baseColorOffset = s.targetColorOffset := by
  simp only [circularDistance] at hd
  simp only [colorTransitionTick]
  rw [if_pos ⟨hne, hsp⟩]
  have hcond : (if ((s.targetColorOffset - s.baseColorOffset).natAbs : Int) > 128
      then 256 - ((s.targetColorOffset - s.baseColorOffset).natAbs : Int)
      else ((s.targetColorOffset - s.baseColorOffset).natAbs : Int)) ≤ 3 := by
    split <;> omega
  rw [if_pos hcond]

/-- C5 witness: current 10 and target 12 are at circular distance 2, and one
tick snaps current to 12. -/
theorem snap_correctness_witness :
    circularDistance (10 : Int) 12 ≤ 3 ∧
    (colorTransitionTick 1000
      { baseState with baseColorOffset := 10, targetColorOffset := 12 }).baseColorOffset = 12 := by
  refine ⟨by decide, ?_⟩
  exact snap_correctness 1000
    { baseState with baseColorOffset := 10, targetColorOffset := 12 }
    (by decide) (by decide) (by decide) (by decide) (by decide) (by decide) (by decide)

set_option maxHeartbeats 2000000 in
/-- C6: beyond the snap threshold and with no reconciliation pending, a
color-transition tick within the 25 ms inter-step delay changes nothing,
and an eligible tick performs exactly one step whose size follows the
distance scaling (3 beyond 60, 2 beyond 30, else 1), shrinking the circular
distance by exactly that step and moving along the shorter arc of the
256-ring: forward when the forward arc (target - current mod 256) is below
128, backward (through 0/255) when it is above 128. -/
theorem shorter_arc_stepping (now : Nat) (s : DeviceState)
    (hb0 : 0 ≤ s.baseColorOffset) (hb1 : s.baseColorOffset < 256)
    (ht0 : 0 ≤ s.targetColorOffset) (ht1 : s.targetColorOffset < 256)
    (hd : 3 < circularDistance s.baseColorOffset s.targetColorOffset)
    (hsp : s.syncPending = false) :
    (sub32 now s.lastColorTransition < 25 → colorTransitionTick now s = s) ∧
    (25 ≤ sub32 now s.lastColorTransition →
      (colorTransitionTick now s).lastColorTransition = now ∧
      circularDistance (colorTransitionTick now s).baseColorOffset s.targetColorOffset
        = circularDistance s.baseColorOffset s.targetColorOffset
          - stepFor (circularDistance s.baseColorOffset s.targetColorOffset) ∧
      ((s.targetColorOffset - s.baseColorOffset) % 256 < 128 →
        (colorTransitionTick now s).baseColorOffset
          = (s.baseColorOffset
              + stepFor (circularDistance s.baseColorOffset s.targetColorOffset)) % 256) ∧
      (128 < (s.targetColorOffset - s.baseColorOffset) % 256 →
        (colorTransitionTick now s).baseColorOffset
          = (s.baseColorOffset
              - stepFor (circularDistance s.baseColorOffset s.targetColorOffset)) % 256)) := by
  have hne : s.baseColorOffset ≠ s.targetColorOffset := by
    intro he
    simp only [circularDistance, he, sub_self, Int.natAbs_zero] at hd
    omega
  have hDeq : (if ((s.targetColorOffset - s.baseColorOffset).natAbs : Int) > 128
      then 256 - ((s.targetColorOffset - s.baseColorOffset).natAbs : Int)
      else ((s.targetColorOffset - s.baseColorOffset).natAbs : Int))
      = circularDistance s.baseColorOffset s.targetColorOffset := by
    simp only [circularDistance]
    split <;> omega
  constructor
  · intro hlt
    simp only [colorTransitionTick]
    rw [if_pos ⟨hne, hsp⟩, hDeq,
      if_neg (show ¬ circularDistance s.baseColorOffset s.targetColorOffset ≤ 3 by omega),
      if_neg (by omega)]
  · intro hge
    simp only [colorTransitionTick]
    rw [if_pos ⟨hne, hsp⟩]
    simp only [colorStepValue, stepFor]
    rw [hDeq,
      if_neg (show ¬ circularDistance s.baseColorOffset s.targetColorOffset ≤ 3 by omega),
      if_pos hge]
    generalize hst : (if (60 : Int) < circularDistance s.baseColorOffset s.targetColorOffset
      then (3 : Int)
      else if (30 : Int) < circularDistance s.baseColorOffset s.targetColorOffset then 2
      else 1) = st
    have hst1 : 1 ≤ st := by rw [← hst]; split_ifs <;> omega
    have hst3 : st ≤ 3 := by rw [← hst]; split_ifs <;> omega
    have e1 : (s.baseColorOffset + st).tmod 256 = (s.baseColorOffset + st) % 256 :=
      Int.tmod_eq_emod (by omega) (by omega)
    have e2 : (s.baseColorOffset - st).tmod 256
        = if s.baseColorOffset - st < 0 then s.baseColorOffset - st
          else (s.baseColorOffset - st) % 256 := tmod256_cases _ (by omega)
    rw [e1, e2]
    simp only [circularDistance] at hd ⊢
    refine ⟨trivial, ?_, fun hf => ?_, fun hf => ?_⟩
    all_goals split_ifs <;> omega

/-- C6 witness: at current 10, target 250 the circular distance is 16, the
step size is 1, and one eligible tick moves downward through the 0/255
boundary to 9, not upward toward 250. -/
theorem shorter_arc_stepping_witness :
    circularDistance (10 : Int) 250 = 16 ∧
    128 < ((250 : Int) - 10) % 256 ∧
    (colorTransitionTick 1000
      { baseState with baseColorOffset := 10, targetColorOffset := 250 }).baseColorOffset = 9 := by
  have h := (shorter_arc_stepping 1000
    { baseState with baseColorOffset := 10, targetColorOffset := 250 }
    (by decide) (by decide) (by decide) (by decide) (by decide) (by decide)).2 (by decide)
  have h4 := h.2.2.2 (by decide)
  refine ⟨by decide, by decide, ?_⟩
  rw [h4]
  decide

/-- C2 counterexample: an encoder turn 100 ms after the previous
encoder-driven clock jump changes the color state but leaves bootTime
untouched, so the logical clock stays at its previous value instead of
advancing to previous plus 2 (the rate limiter at lines 762-763 only allows
one jump per 500 ms). -/
theorem clock_jump_counterexample :
    (checkInputs 1000 { idleInputs with encoderPosition := 1 } baseRand
        { baseState with lastEncoderUpdate := 900 }).1.colorPosition ≠
      baseState.colorPosition ∧
    (checkInputs 1000 { idleInputs with encoderPosition := 1 } baseRand
        { baseState with lastEncoderUpdate := 900 }).1.bootTime = baseState.bootTime ∧
    logicalNow 1000 (checkInputs 1000 { idleInputs with encoderPosition := 1 } baseRand
        { baseState with lastEncoderUpdate := 900 }).1.bootTime
      = logicalNow 1000 baseState.bootTime ∧
    logicalNow 1000 baseState.bootTime + 2 ≠ logicalNow 1000 baseState.bootTime := by
  decide

/-- C2 (amended): a pattern change, an up-button press and a down-button
press always jump the clock so that the logical time becomes its previous
value plus 2 (given the re-derived millisecond count does not overflow
uint32); an encoder turn does so only when more than 500 ms have elapsed
since the previous encoder-driven jump, and otherwise leaves bootTime
unchanged. -/
theorem clock_jump_on_local_change (now : Nat) (r : Rand) (s : DeviceState)
    (hov : (logicalNow now s.bootTime + 2) * 1000 < u32Mod) :
    (∀ d : Int, logicalNow now (changePattern now r d s).bootTime
        = logicalNow now s.bootTime + 2) ∧
    (∀ inp : Inputs, s.anoAvailable = true → inp.encoderPosition = s.lastPosition →
        inp.center = false → inp.up = true → s.lastButton1 = false →
        inp.down = false → inp.left = false → inp.right = false →
        logicalNow now (checkInputs now inp r s).1.bootTime
          = logicalNow now s.bootTime + 2) ∧
    (∀ inp : Inputs, s.anoAvailable = true → inp.encoderPosition = s.lastPosition →
        inp.center = false → inp.up = false → inp.down = true → s.lastButton2 = false →
        inp.left = false → inp.right = false →
        logicalNow now (checkInputs now inp r s).1.bootTime
          = logicalNow now s.bootTime + 2) ∧
    (∀ inp : Inputs, s.anoAvailable = true → inp.encoderPosition ≠ s.lastPosition →
        inp.center = false → inp.up = false → inp.down = false →
        inp.left = false → inp.right = false →
        (500 < sub32 now s.lastEncoderUpdate →
          logicalNow now (checkInputs now inp r s).1.bootTime
            = logicalNow now s.bootTime + 2) ∧
        (sub32 now s.lastEncoderUpdate ≤ 500 →
          (checkInputs now inp r s).1.bootTime = s.bootTime)) := by
  have hadv := logicalNow_advanceTimestamp now s.bootTime hov
  refine ⟨?_, ?_, ?_, ?_⟩
  · intro d
    simp only [changePattern]
    exact hadv
  · intro inp hano henc hc hu hl1 hdn hlf hrt
    by_cases hbl : s.buttonLongPressInProgress <;>
      simp [checkInputs, buttonsStep, encoderStep, centerPressStep, centerHoldStep, upButtonStep,
        downButtonStep, hano, henc, hc, hu, hl1, hdn, hlf, hrt, hbl, hadv]
  · intro inp hano henc hc hu hdn hl2 hlf hrt
    by_cases hbl : s.buttonLongPressInProgress <;>
      simp [checkInputs, buttonsStep, encoderStep, centerPressStep, centerHoldStep, upButtonStep,
        downButtonStep, hano, henc, hc, hu, hdn, hl2, hlf, hrt, hbl, hadv]
  · intro inp hano henc hc hu hdn hlf hrt
    constructor
    · intro h500
      by_cases hbl : s.buttonLongPressInProgress <;>
        simp [checkInputs, buttonsStep, encoderStep, centerPressStep, centerHoldStep, upButtonStep,
          downButtonStep, hano, henc, hc, hu, hdn, hlf, hrt, hbl, h500, hadv]
    · intro h500
      have h500n : ¬ 500 < sub32 now s.lastEncoderUpdate := by omega
      by_cases hbl : s.buttonLongPressInProgress <;>
        simp [checkInputs, buttonsStep, encoderStep, centerPressStep, centerHoldStep, upButtonStep,
          downButtonStep, hano, henc, hc, hu, hdn, hlf, hrt, hbl, h500n]

/-- C2 witness: from the power-on state at 2000 ms every jump path advances
the logical clock from 2 to 4. -/
theorem clock_jump_witness :
    logicalNow 2000 (changePattern 2000 baseRand 1 baseState).bootTime
      = logicalNow 2000 baseState.bootTime + 2 ∧
    logicalNow 2000
        (checkInputs 2000 { idleInputs with up := true } baseRand baseState).1.bootTime
      = logicalNow 2000 baseState.bootTime + 2 ∧
    logicalNow 2000
        (checkInputs 2000 { idleInputs with down := true } baseRand baseState).1.bootTime
      = logicalNow 2000 baseState.bootTime + 2 ∧
    logicalNow 2000
        (checkInputs 2000 { idleInputs with encoderPosition := 5 } baseRand baseState).1.bootTime
      = logicalNow 2000 baseState.bootTime + 2 := by
  have h := clock_jump_on_local_change 2000 baseRand baseState (by decide)
  exact ⟨h.1 1,
    h.2.1 { idleInputs with up := true } rfl rfl rfl rfl rfl rfl rfl rfl,
    h.2.2.1 { idleInputs with down := true } rfl rfl rfl rfl rfl rfl rfl rfl,
    (h.2.2.2 { idleInputs with encoderPosition := 5 } rfl (by decide) rfl rfl rfl rfl
      rfl).1 (by decide)⟩

theorem broadcastSync_frame (now : Nat) (a b : Bool) (s : DeviceState) :
    (broadcastSync now a b s).1.isBlinking = s.isBlinking ∧
    (broadcastSync now a b s).1.blinkState = s.blinkState ∧
    (broadcastSync now a b s).1.blinkFadeBrightness_ = s.blinkFadeBrightness_ ∧
    (broadcastSync now a b s).1.nextBlinkTime = s.nextBlinkTime ∧
    (broadcastSync now a b s).1.startBlinkMs_ = s.startBlinkMs_ ∧
    (broadcastSync now a b s).1.endBlinkMs_ = s.endBlinkMs_ ∧
    (broadcastSync now a b s).1.inSleepMode = s.inSleepMode ∧
    (broadcastSync now a b s).1.anoAvailable = s.anoAvailable := by
  simp only [broadcastSync]
  split_ifs <;> simp

theorem fastModeExpire_frame (now : Nat) (s : DeviceState) :
    (fastModeExpire now s).isBlinking = s.isBlinking ∧
    (fastModeExpire now s).blinkState = s.blinkState ∧
    (fastModeExpire now s).blinkFadeBrightness_ = s.blinkFadeBrightness_ ∧
    (fastModeExpire now s).nextBlinkTime = s.nextBlinkTime ∧
    (fastModeExpire now s).startBlinkMs_ = s.startBlinkMs_ ∧
    (fastModeExpire now s).endBlinkMs_ = s.endBlinkMs_ ∧
    (fastModeExpire now s).inSleepMode = s.inSleepMode ∧
    (fastModeExpire now s).anoAvailable = s.anoAvailable := by
  simp only [fastModeExpire]
  split_ifs <;> simp

theorem syncPendingClear_frame (now si mis : Nat) (s : DeviceState) :
    (syncPendingClear now si mis s).isBlinking = s.isBlinking ∧
    (syncPendingClear now si mis s).blinkState = s.blinkState ∧
    (syncPendingClear now si mis s).blinkFadeBrightness_ = s.blinkFadeBrightness_ ∧
    (syncPendingClear now si mis s).nextBlinkTime = s.nextBlinkTime ∧
    (syncPendingClear now si mis s).startBlinkMs_ = s.startBlinkMs_ ∧
    (syncPendingClear now si mis s).endBlinkMs_ = s.endBlinkMs_ ∧
    (syncPendingClear now si mis s).inSleepMode = s.inSleepMode ∧
    (syncPendingClear now si mis s).anoAvailable = s.anoAvailable := by
  simp only [syncPendingClear]
  split_ifs <;> simp

theorem broadcastWindow_frame (now si mis : Nat) (a b : Bool) (s : DeviceState) :
    (broadcastWindow now si mis a b s).isBlinking = s.isBlinking ∧
    (broadcastWindow now si mis a b s).blinkState = s.blinkState ∧
    (broadcastWindow now si mis a b s).blinkFadeBrightness_ = s.blinkFadeBrightness_ ∧
    (broadcastWindow now si mis a b s).nextBlinkTime = s.nextBlinkTime ∧
    (broadcastWindow now si mis a b s).startBlinkMs_ = s.startBlinkMs_ ∧
    (broadcastWindow now si mis a b s).endBlinkMs_ = s.endBlinkMs_ ∧
    (broadcastWindow now si mis a b s).inSleepMode = s.inSleepMode ∧
    (broadcastWindow now si mis a b s).anoAvailable = s.anoAvailable := by
  simp only [broadcastWindow]
  split_ifs <;> simp [broadcastSync_frame]

theorem awakeSyncSection_frame (now : Nat) (a b : Bool) (s : DeviceState) :
    (awakeSyncSection now a b s).isBlinking = s.isBlinking ∧
    (awakeSyncSection now a b s).blinkState = s.blinkState ∧
    (awakeSyncSection now a b s).blinkFadeBrightness_ = s.blinkFadeBrightness_ ∧
    (awakeSyncSection now a b s).nextBlinkTime = s.nextBlinkTime ∧
    (awakeSyncSection now a b s).startBlinkMs_ = s.startBlinkMs_ ∧
    (awakeSyncSection now a b s).endBlinkMs_ = s.endBlinkMs_ ∧
    (awakeSyncSection now a b s).inSleepMode = s.inSleepMode ∧
    (awakeSyncSection now a b s).anoAvailable = s.anoAvailable := by
  simp only [awakeSyncSection]
  split_ifs <;>
    simp [syncPendingClear_frame, broadcastWindow_frame, fastModeExpire_frame]

theorem autoCycle_frame (now : Nat) (s : DeviceState) :
    (autoCycle now s).isBlinking = s.isBlinking ∧
    (autoCycle now s).blinkState = s.blinkState ∧
    (autoCycle now s).blinkFadeBrightness_ = s.blinkFadeBrightness_ ∧
    (autoCycle now s).nextBlinkTime = s.nextBlinkTime ∧
    (autoCycle now s).startBlinkMs_ = s.startBlinkMs_ ∧
    (autoCycle now s).endBlinkMs_ = s.endBlinkMs_ ∧
    (autoCycle now s).inSleepMode = s.inSleepMode ∧
    (autoCycle now s).anoAvailable = s.anoAvailable := by
  simp only [autoCycle]
  split_ifs <;> simp

theorem colorTransitionTick_frame (now : Nat) (s : DeviceState) :
    (colorTransitionTick now s).isBlinking = s.isBlinking ∧
    (colorTransitionTick now s).blinkState = s.blinkState ∧
    (colorTransitionTick now s).blinkFadeBrightness_ = s.blinkFadeBrightness_ ∧
    (colorTransitionTick now s).nextBlinkTime = s.nextBlinkTime ∧
    (colorTransitionTick now s).startBlinkMs_ = s.startBlinkMs_ ∧
    (colorTransitionTick now s).endBlinkMs_ = s.endBlinkMs_ ∧
    (colorTransitionTick now s).inSleepMode = s.inSleepMode ∧
    (colorTransitionTick now s).anoAvailable = s.anoAvailable := by
  simp only [colorTransitionTick]
  split_ifs <;> simp

theorem updatePattern_frame (now : Nat) (r : Rand) (s : DeviceState) :
    (updatePattern now r s).isBlinking = s.isBlinking ∧
    (updatePattern now r s).blinkState = s.blinkState ∧
    (updatePattern now r s).blinkFadeBrightness_ = s.blinkFadeBrightness_ ∧
    (updatePattern now r s).nextBlinkTime = s.nextBlinkTime ∧
    (updatePattern now r s).startBlinkMs_ = s.startBlinkMs_ ∧
    (updatePattern now r s).endBlinkMs_ = s.endBlinkMs_ ∧
    (updatePattern now r s).inSleepMode = s.inSleepMode ∧
    (updatePattern now r s).anoAvailable = s.anoAvailable := by
  simp only [updatePattern]
  split_ifs <;> simp

/-- The tail of an awake loop pass heals a corrupted blink state: from the
stale-blink check to the invalid-blink guard, a blinking machine with an
out-of-range phase or inverted phase bounds always ends Idle at full
brightness with a strictly future next blink. -/
theorem blink_tail_heals (now : Nat) (r : Rand) (t : DeviceState)
    (hblink : t.isBlinking = true)
    (hbad : 3 < t.blinkState ∨ t.endBlinkMs_ < t.startBlinkMs_)
    (hr1 : 2000 ≤ r.staleBlinkDelay) (hr2 : r.staleBlinkDelay < 10000)
    (hr3 : 2000 ≤ r.resetBlinkDelay) (hr4 : r.resetBlinkDelay < 10000)
    (hnw : now + 10000 < u32Mod) :
    (blinkGuard now r (updatePattern now r
        (maybeStartBlink now (staleBlinkCheck now r t)))).isBlinking = false ∧
    (blinkGuard now r (updatePattern now r
        (maybeStartBlink now (staleBlinkCheck now r t)))).blinkState = 0 ∧
    (blinkGuard now r (updatePattern now r
        (maybeStartBlink now (staleBlinkCheck now r t)))).blinkFadeBrightness_ = 1 ∧
    now < (blinkGuard now r (updatePattern now r
        (maybeStartBlink now (staleBlinkCheck now r t)))).nextBlinkTime := by
  have hstale : add32 now r.staleBlinkDelay = now + r.staleBlinkDelay :=
    add32_eq_of_lt (by omega)
  have hreset : add32 now r.resetBlinkDelay = now + r.resetBlinkDelay :=
    add32_eq_of_lt (by omega)
  by_cases hsc : sub32 now t.lastBlinkCompletionCheck > 200
  · by_cases hst : now > add32 t.endBlinkMs_ 2000
    · -- the stale-blink check already resets everything
      have hu : staleBlinkCheck now r t =
          { t with
            lastBlinkCompletionCheck := now
            isBlinking := false
            blinkState := 0
            blinkFadeBrightness_ := 1
            nextBlinkTime := add32 now r.staleBlinkDelay } := by
        simp [staleBlinkCheck, hsc, hst, hblink]
      rw [hu]
      have hm : ¬ now ≥ add32 now r.staleBlinkDelay := by
        rw [hstale]; omega
      have hv : maybeStartBlink now
          { t with
            lastBlinkCompletionCheck := now
            isBlinking := false
            blinkState := 0
            blinkFadeBrightness_ := 1
            nextBlinkTime := add32 now r.staleBlinkDelay } =
          { t with
            lastBlinkCompletionCheck := now
            isBlinking := false
            blinkState := 0
            blinkFadeBrightness_ := 1
            nextBlinkTime := add32 now r.staleBlinkDelay } := by
        simp [maybeStartBlink, hm]
      rw [hv]
      have hup := updatePattern_frame now r
        { t with
          lastBlinkCompletionCheck := now
          isBlinking := false
          blinkState := 0
          blinkFadeBrightness_ := 1
          nextBlinkTime := add32 now r.staleBlinkDelay }
      have hbg : blinkGuard now r (updatePattern now r
          { t with
            lastBlinkCompletionCheck := now
            isBlinking := false
            blinkState := 0
            blinkFadeBrightness_ := 1
            nextBlinkTime := add32 now r.staleBlinkDelay }) =
          updatePattern now r
          { t with
            lastBlinkCompletionCheck := now
            isBlinking := false
            blinkState := 0
            blinkFadeBrightness_ := 1
            nextBlinkTime := add32 now r.staleBlinkDelay } := by
        simp [blinkGuard, hup.1]
      rw [hbg]
      refine ⟨by simp [hup.1], by simp [hup.2.1], by simp [hup.2.2.1], ?_⟩
      rw [hup.2.2.2.1]
      simp only [hstale]
      omega
    · -- no stale reset: the invalid-blink guard performs the reset
      have hu : staleBlinkCheck now r t = { t with lastBlinkCompletionCheck := now } := by
        simp [staleBlinkCheck, hsc, hst]
      rw [hu]
      have hv : maybeStartBlink now { t with lastBlinkCompletionCheck := now } =
          { t with lastBlinkCompletionCheck := now } := by
        simp [maybeStartBlink, hblink]
      rw [hv]
      have hup := updatePattern_frame now r { t with lastBlinkCompletionCheck := now }
      have hcond : (updatePattern now r { t with lastBlinkCompletionCheck := now }).isBlinking
            = true ∧
          (3 < (updatePattern now r { t with lastBlinkCompletionCheck := now }).blinkState ∨
            (updatePattern now r { t with lastBlinkCompletionCheck := now }).endBlinkMs_ <
              (updatePattern now r { t with lastBlinkCompletionCheck := now }).startBlinkMs_) := by
        refine ⟨by rw [hup.1]; exact hblink, ?_⟩
        rw [hup.2.1, hup.2.2.2.2.1, hup.2.2.2.2.2.1]
        simpa using hbad
      have hbg : blinkGuard now r (updatePattern now r { t with lastBlinkCompletionCheck := now }) =
          { updatePattern now r { t with lastBlinkCompletionCheck := now } with
            isBlinking := false
            blinkState := 0
            blinkFadeBrightness_ := 1
            nextBlinkTime := add32 now r.resetBlinkDelay } := by
        rcases hcond.2 with hb | hb
        · simp [blinkGuard, hcond.1, hb]
        · simp [blinkGuard, hcond.1, hb]
      rw [hbg]
      refine ⟨by simp, by simp, by simp, ?_⟩
      simp only [hreset]
      omega
  · -- the 200 ms gate skipped the stale check entirely
    have hu : staleBlinkCheck now r t = t := by
      simp [staleBlinkCheck, hsc]
    rw [hu]
    have hv : maybeStartBlink now t = t := by
      simp [maybeStartBlink, hblink]
    rw [hv]
    have hup := updatePattern_frame now r t
    have hcond : (updatePattern now r t).isBlinking = true ∧
        (3 < (updatePattern now r t).blinkState ∨
          (updatePattern now r t).endBlinkMs_ < (updatePattern now r t).startBlinkMs_) := by
      refine ⟨by rw [hup.1]; exact hblink, ?_⟩
      rw [hup.2.1, hup.2.2.2.2.1, hup.2.2.2.2.2.1]
      exact hbad
    have hbg : blinkGuard now r (updatePattern now r t) =
        { updatePattern now r t with
          isBlinking := false
          blinkState := 0
          blinkFadeBrightness_ := 1
          nextBlinkTime := add32 now r.resetBlinkDelay } := by
      rcases hcond.2 with hb | hb
      · simp [blinkGuard, hcond.1, hb]
      · simp [blinkGuard, hcond.1, hb]
    rw [hbg]
    refine ⟨by simp, by simp, by simp, ?_⟩
    simp only [hreset]
    omega

/-- C4: one awake pass of the main loop heals an injected invalid blink
state: if the machine is blinking with a phase above 3 or with
endBlinkMs_ below startBlinkMs_, the pass ends with the machine Idle
(isBlinking false, blinkState 0), blinkFadeBrightness_ back at 1.0, and a
nextBlinkTime strictly in the future.  The timing hypotheses keep the pass
away from the 50 ms button poll and the random blink delays inside their
generated ranges. -/
theorem blink_self_healing (now : Nat) (inp : Inputs) (r : Rand)
    (sendOK reinitOK : Bool) (s : DeviceState)
    (hawake : s.inSleepMode = false)
    (hblink : s.isBlinking = true)
    (hbad : 3 < s.blinkState ∨ s.endBlinkMs_ < s.startBlinkMs_)
    (hgate : sub32 now s.lastButtonCheck < 50)
    (hr1 : 2000 ≤ r.staleBlinkDelay) (hr2 : r.staleBlinkDelay < 10000)
    (hr3 : 2000 ≤ r.resetBlinkDelay) (hr4 : r.resetBlinkDelay < 10000)
    (hnw : now + 10000 < u32Mod) :
    (loopTick now inp r sendOK reinitOK s).1.isBlinking = false ∧
    (loopTick now inp r sendOK reinitOK s).1.blinkState = 0 ∧
    (loopTick now inp r sendOK reinitOK s).1.blinkFadeBrightness_ = 1 ∧
    now < (loopTick now inp r sendOK reinitOK s).1.nextBlinkTime := by
  have hpoll : buttonPoll now inp r s = (s, []) := by
    have hg : ¬ sub32 now s.lastButtonCheck ≥ 50 := by omega
    simp [buttonPoll, hg]
  have hA := awakeSyncSection_frame now sendOK reinitOK s
  have hB := autoCycle_frame now (awakeSyncSection now sendOK reinitOK s)
  have hC := colorTransitionTick_frame now
    (autoCycle now (awakeSyncSection now sendOK reinitOK s))
  have htb : (colorTransitionTick now
      (autoCycle now (awakeSyncSection now sendOK reinitOK s))).isBlinking = true := by
    rw [hC.1, hB.1, hA.1]; exact hblink
  have htbad : 3 < (colorTransitionTick now
        (autoCycle now (awakeSyncSection now sendOK reinitOK s))).blinkState ∨
      (colorTransitionTick now
        (autoCycle now (awakeSyncSection now sendOK reinitOK s))).endBlinkMs_ <
      (colorTransitionTick now
        (autoCycle now (awakeSyncSection now sendOK reinitOK s))).startBlinkMs_ := by
    rw [hC.2.1, hB.2.1, hA.2.1, hC.2.2.2.2.2.1, hB.2.2.2.2.2.1, hA.2.2.2.2.2.1,
      hC.2.2.2.2.1, hB.2.2.2.2.1, hA.2.2.2.2.1]
    exact hbad
  have hmain := blink_tail_heals now r
    (colorTransitionTick now (autoCycle now (awakeSyncSection now sendOK reinitOK s)))
    htb htbad hr1 hr2 hr3 hr4 hnw
  have heq : (loopTick now inp r sendOK reinitOK s).1
      = blinkGuard now r (updatePattern now r (maybeStartBlink now (staleBlinkCheck now r
          (colorTransitionTick now
            (autoCycle now (awakeSyncSection now sendOK reinitOK s)))))) := by
    simp only [loopTick]
    rw [hpoll]
    simp [hawake]
  rw [heq]
  exact hmain

theorem encoderStep_inSleepMode (now : Nat) (inp : Inputs) (s : DeviceState) :
    (encoderStep now inp s).inSleepMode = s.inSleepMode := by
  simp only [encoderStep]
  split_ifs <;> rfl

theorem staleBlinkCheck_inSleepMode (now : Nat) (r : Rand) (s : DeviceState) :
    (staleBlinkCheck now r s).inSleepMode = s.inSleepMode := by
  simp only [staleBlinkCheck]
  split_ifs <;> rfl

theorem maybeStartBlink_inSleepMode (now : Nat) (s : DeviceState) :
    (maybeStartBlink now s).inSleepMode = s.inSleepMode := by
  simp only [maybeStartBlink]
  split_ifs <;> rfl

theorem handleEyeBlinkCore_inSleepMode (now : Nat) (r : Rand) (s : DeviceState) :
    (handleEyeBlinkCore now r s).inSleepMode = s.inSleepMode := by
  simp only [handleEyeBlinkCore]
  split <;> (try split_ifs) <;> rfl

theorem clampFade_inSleepMode (s : DeviceState) :
    (clampFade s).inSleepMode = s.inSleepMode := rfl

theorem handleEyeBlink_inSleepMode (now : Nat) (r : Rand) (s : DeviceState) :
    (handleEyeBlink now r s).inSleepMode = s.inSleepMode := by
  simp only [handleEyeBlink]
  split_ifs <;>
    first
      | rfl
      | rw [clampFade_inSleepMode, handleEyeBlinkCore_inSleepMode]

theorem blinkGuard_inSleepMode (now : Nat) (r : Rand) (s : DeviceState) :
    (blinkGuard now r s).inSleepMode = s.inSleepMode := by
  simp only [blinkGuard]
  split_ifs <;> first | rfl | exact handleEyeBlink_inSleepMode now r s

theorem sleepTickRest_inSleepMode (now : Nat) (s : DeviceState) :
    (sleepTickRest now s).inSleepMode = s.inSleepMode := by
  simp only [sleepTickRest]
  split_ifs <;> simp [syncPendingClear_frame, fastModeExpire_frame]

/-- The receive callback only ever writes the global brightness to the
pixel sink (line 142); it never calls setPixelColor or show. -/
theorem onDataRecv_ops_brightness (now : Nat) (msg : SyncMessage) (s : DeviceState) :
    ((onDataRecv now msg s).2.all isBrightnessOnly) = true := by
  simp only [onDataRecv]
  split_ifs <;> simp [isBrightnessOnly]

theorem changePattern_inSleepMode (now : Nat) (r : Rand) (d : Int)
    (s : DeviceState) : (changePattern now r d s).inSleepMode = s.inSleepMode := rfl

theorem upButtonStep_inSleepMode (now : Nat) (inp : Inputs) (s : DeviceState) :
    (upButtonStep now inp s).1.inSleepMode = s.inSleepMode := by
  simp only [upButtonStep]
  split_ifs <;> rfl

theorem downButtonStep_inSleepMode (now : Nat) (inp : Inputs) (s : DeviceState) :
    (downButtonStep now inp s).1.inSleepMode = s.inSleepMode := by
  simp only [downButtonStep]
  split_ifs <;> rfl

/-- While the device sleeps and stays asleep across the button section, the
only pixel-sink writes it can perform are the setBrightness calls of the
up/down buttons: every setPixelColor/show path (the wake flash and the sleep
blanking) flips inSleepMode. -/
theorem buttonsStep_asleep_ops (now : Nat) (inp : Inputs) (r : Rand)
    (u : DeviceState) (h0 : u.inSleepMode = true)
    (h1 : (buttonsStep now inp r u).1.inSleepMode = true) :
    ((buttonsStep now inp r u).2.all isBrightnessOnly) = true := by
  by_cases hedge : (inp.center && !u.lastButton0) = true
  · -- a press edge while asleep wakes the device, so the pass cannot end asleep
    have hc : inp.center = true ∧ u.lastButton0 = false := by
      simpa [Bool.and_eq_true, Bool.not_eq_true'] using hedge
    have hmode : (buttonsStep now inp r u).1.inSleepMode = false := by
      simp [buttonsStep, centerPressStep, centerHoldStep, wakeFromSleepMode,
        hc.1, hc.2, h0, sub32_self, upButtonStep_inSleepMode,
        downButtonStep_inSleepMode, changePattern_inSleepMode,
        apply_ite DeviceState.inSleepMode]
    simp [hmode] at h1
  · have hedge' : (inp.center && !u.lastButton0) = false := by
      revert hedge
      cases inp.center && !u.lastButton0 <;> simp
    have hp1 : centerPressStep now inp r u = (u, []) := by
      simp [centerPressStep, hedge']
    by_cases hcen : inp.center = true
    · by_cases hbl : u.buttonLongPressInProgress = true
      · by_cases hlp : u.longPressHandled = true
        · have hp2 : centerHoldStep now inp r u = (u, []) := by
            simp [centerHoldStep, hcen, hbl, hlp]
          simp only [buttonsStep, hp1, hp2, upButtonStep, downButtonStep]
          split_ifs <;> simp [isBrightnessOnly]
        · by_cases htime : 2000 ≤ sub32 now u.buttonPressStartTime
          · -- a completed long press while asleep wakes the device
            have hlp' : u.longPressHandled = false := by
              revert hlp; cases u.longPressHandled <;> simp
            have hmode : (buttonsStep now inp r u).1.inSleepMode = false := by
              simp [buttonsStep, hp1, centerHoldStep, wakeFromSleepMode, hcen, hbl,
                hlp', htime, h0, upButtonStep_inSleepMode, downButtonStep_inSleepMode,
                changePattern_inSleepMode, apply_ite DeviceState.inSleepMode]
            simp [hmode] at h1
          · have hp2 : centerHoldStep now inp r u = (u, []) := by
              simp [centerHoldStep, hcen, hbl, htime]
            simp only [buttonsStep, hp1, hp2, upButtonStep, downButtonStep]
            split_ifs <;> simp [isBrightnessOnly]
      · have hbl' : u.buttonLongPressInProgress = false := by
          revert hbl; cases u.buttonLongPressInProgress <;> simp
        have hp2 : centerHoldStep now inp r u
            = ({ u with
                  buttonLongPressInProgress := true
                  buttonPressStartTime := now
                  longPressHandled := false }, []) := by
          simp [centerHoldStep, hcen, hbl', sub32_self]
        simp only [buttonsStep, hp1, hp2, upButtonStep, downButtonStep]
        split_ifs <;> simp [isBrightnessOnly]
    · have hcen' : inp.center = false := by
        revert hcen; cases inp.center <;> simp
      by_cases hbl : u.buttonLongPressInProgress = true
      · have hp2 : centerHoldStep now inp r u
            = ({ u with
                  buttonLongPressInProgress := false
                  longPressHandled := false }, []) := by
          simp [centerHoldStep, hcen', hbl]
        simp only [buttonsStep, hp1, hp2, upButtonStep, downButtonStep]
        split_ifs <;> simp [isBrightnessOnly]
      · have hbl' : u.buttonLongPressInProgress = false := by
          revert hbl; cases u.buttonLongPressInProgress <;> simp
        have hp2 : centerHoldStep now inp r u = (u, []) := by
          simp [centerHoldStep, hcen', hbl']
        simp only [buttonsStep, hp1, hp2, upButtonStep, downButtonStep]
        split_ifs <;> simp [isBrightnessOnly]

/-- Lifting buttonsStep_asleep_ops through the availability guard and the
encoder handling (which performs no pixel-sink write). -/
theorem checkInputs_asleep_ops (now : Nat) (inp : Inputs) (r : Rand)
    (s : DeviceState) (h0 : s.inSleepMode = true)
    (h1 : (checkInputs now inp r s).1.inSleepMode = true) :
    ((checkInputs now inp r s).2.all isBrightnessOnly) = true := by
  by_cases hano : s.anoAvailable = true
  · have h0e : (encoderStep now inp s).inSleepMode = true := by
      rw [encoderStep_inSleepMode]; exact h0
    have hck : checkInputs now inp r s = buttonsStep now inp r (encoderStep now inp s) := by
      simp [checkInputs, hano]
    rw [hck] at h1 ⊢
    exact buttonsStep_asleep_ops now inp r _ h0e h1
  · have hano' : s.anoAvailable = false := by
      revert hano; cases s.anoAvailable <;> simp
    simp [checkInputs, hano']

/-- While a loop pass starts and ends asleep, its pixel-sink writes are
brightness-only: the pass returns before rendering (line 505) and the
button section cannot blank or flash without flipping the sleep flag. -/
theorem loopTick_asleep_ops (now : Nat) (inp : Inputs) (r : Rand)
    (sendOK reinitOK : Bool) (s : DeviceState) (h0 : s.inSleepMode = true)
    (h1 : (loopTick now inp r sendOK reinitOK s).1.inSleepMode = true) :
    ((loopTick now inp r sendOK reinitOK s).2.all isBrightnessOnly) = true := by
  by_cases hg : (s.anoAvailable && decide (sub32 now s.lastButtonCheck ≥ 50)) = true
  · have hbp : buttonPoll now inp r s
        = ({ (checkInputs now inp r s).1 with lastButtonCheck := now },
           (checkInputs now inp r s).2) := by
      simp only [buttonPoll, hg, if_true]
    by_cases hps : (checkInputs now inp r s).1.inSleepMode = true
    · have hops : (loopTick now inp r sendOK reinitOK s).2 = (checkInputs now inp r s).2 := by
        simp [loopTick, hbp, hps]
      rw [hops]
      exact checkInputs_asleep_ops now inp r s h0 hps
    · have hps' : (checkInputs now inp r s).1.inSleepMode = false := by
        revert hps; cases (checkInputs now inp r s).1.inSleepMode <;> simp
      have hmode : (loopTick now inp r sendOK reinitOK s).1.inSleepMode = false := by
        simp only [loopTick, hbp]
        rw [if_neg (by simp [hps'])]
        simp [hps', blinkGuard_inSleepMode, updatePattern_frame,
          maybeStartBlink_inSleepMode, staleBlinkCheck_inSleepMode,
          colorTransitionTick_frame, autoCycle_frame, awakeSyncSection_frame]
      simp [hmode] at h1
  · have hg' : (s.anoAvailable && decide (sub32 now s.lastButtonCheck ≥ 50)) = false := by
      revert hg
      cases s.anoAvailable && decide (sub32 now s.lastButtonCheck ≥ 50) <;> simp
    have hbp : buttonPoll now inp r s = (s, []) := by
      simp [buttonPoll, hg']
    have hops : (loopTick now inp r sendOK reinitOK s).2 = [] := by
      simp [loopTick, hbp, h0]
    rw [hops]
    rfl

/-- C7 (amended): from sleep entry until a wake, across every sequence of
loop passes and received sync messages that keeps the device asleep, no
setPixelColor and no show reaches the pixel sink; the only possible writes
are global-brightness changes (setBrightness), issued by up/down button
presses and by winning sync messages carrying a different brightness. -/
theorem sleep_suppresses_rendering (evs : List Event) (s : DeviceState)
    (h0 : s.inSleepMode = true) (h1 : asleepThroughout evs s = true) :
    ∀ op ∈ (processEvents evs s).2, isBrightnessOnly op = true := by
  induction evs generalizing s with
  | nil =>
    intro op hop
    simp [processEvents] at hop
  | cons e es ih =>
    intro op hop
    simp only [asleepThroughout, Bool.and_eq_true] at h1
    simp only [processEvents, List.mem_append] at hop
    rcases hop with hop | hop
    · have hstep : ((stepEvent e s).2.all isBrightnessOnly) = true := by
        cases e with
        | tick now inp r sendOK reinitOK =>
          exact loopTick_asleep_ops now inp r sendOK reinitOK s h0 h1.1
        | recv now msg => exact onDataRecv_ops_brightness now msg s
      exact List.all_eq_true.mp hstep op hop
    · exact ih (stepEvent e s).1 h1.1 h1.2 op hop

/-- C7 counterexample: while asleep, a received sync message with a winning
timestamp and a different brightness performs a pixel-sink write (a
setBrightness) beyond the single blanking of sleep entry, and the device
stays asleep. -/
theorem sleep_render_counterexample :
    (stepEvent (Event.recv 1000 ⟨500, 0, 77, 0⟩)
      { baseState with inSleepMode := true }).1.inSleepMode = true ∧
    (stepEvent (Event.recv 1000 ⟨500, 0, 77, 0⟩)
      { baseState with inSleepMode := true }).2 = [SinkOp.setBrightness 77] := by
  decide

/-- C7 witness: a losing receive followed by an idle loop pass while asleep
produces only brightness-only pixel-sink output (here none at all beyond
the setBrightness of the winning receive). -/
theorem sleep_suppresses_rendering_witness :
    ((processEvents
      [Event.recv 1000 ⟨500, 0, 77, 0⟩, Event.tick 1100 idleInputs baseRand true true]
      { baseState with inSleepMode := true }).2.all isBrightnessOnly) = true :=
  List.all_eq_true.mpr
    (sleep_suppresses_rendering
      [Event.recv 1000 ⟨500, 0, 77, 0⟩, Event.tick 1100 idleInputs baseRand true true]
      { baseState with inSleepMode := true } (by decide) (by decide))

/-- C8 counterexample: a center press while asleep wakes the device on the
press edge, but leaves fastSyncMode exactly as it was (false here):
wakeFromSleepMode (lines 349-388) never enters fast sync mode, so the wake
does not force fast-interval broadcasting. -/
theorem wake_counterexample :
    (checkInputs 9000 { idleInputs with center := true } baseRand
      { baseState with inSleepMode := true }).1.inSleepMode = false ∧
    (checkInputs 9000 { idleInputs with center := true } baseRand
      { baseState with inSleepMode := true }).1.fastSyncMode = false := by
  decide

/-- C8 (amended): a center press edge while asleep wakes the device
immediately on the press (not the release), resets the animation clock
(lastUpdate, animationStep) and the whole blink machine with a strictly
future next blink, re-randomizes the pattern and the hue with
baseColorOffset equal to targetColorOffset equal to colorPosition, and sets
useCustomColor; it leaves fastSyncMode unchanged rather than forcing
fast-interval broadcasting. -/
theorem wake_on_press (now : Nat) (inp : Inputs) (r : Rand) (s : DeviceState)
    (hsleep : s.inSleepMode = true) (hano : s.anoAvailable = true)
    (hc : inp.center = true) (hedge : s.lastButton0 = false)
    (henc : inp.encoderPosition = s.lastPosition)
    (hup : inp.up = false) (hdn : inp.down = false)
    (hlf : inp.left = false) (hrt : inp.right = false)
    (hr1 : 2000 ≤ r.wakeBlinkDelay) (hr2 : r.wakeBlinkDelay < 10000)
    (hnw : now + 10000 < u32Mod) :
    (checkInputs now inp r s).1.inSleepMode = false ∧
    (checkInputs now inp r s).1.lastUpdate = now ∧
    (checkInputs now inp r s).1.animationStep = 0 ∧
    (checkInputs now inp r s).1.isBlinking = false ∧
    (checkInputs now inp r s).1.blinkState = 0 ∧
    (checkInputs now inp r s).1.blinkFadeBrightness_ = 1 ∧
    now < (checkInputs now inp r s).1.nextBlinkTime ∧
    (checkInputs now inp r s).1.currentPattern = (r.wakePattern : Int) ∧
    (checkInputs now inp r s).1.colorPosition = (r.wakeColor : Int) ∧
    (checkInputs now inp r s).1.baseColorOffset = (r.wakeColor : Int) ∧
    (checkInputs now inp r s).1.targetColorOffset = (r.wakeColor : Int) ∧
    (checkInputs now inp r s).1.useCustomColor = true ∧
    (checkInputs now inp r s).1.fastSyncMode = s.fastSyncMode := by
  have hadd : add32 now r.wakeBlinkDelay = now + r.wakeBlinkDelay :=
    add32_eq_of_lt (by omega)
  simp [checkInputs, buttonsStep, encoderStep, centerPressStep, centerHoldStep,
    upButtonStep, downButtonStep, wakeFromSleepMode, hsleep, hano, hc, hedge,
    henc, hup, hdn, hlf, hrt, sub32_self, hadd]
  omega

/-- C8 witness: the wake theorem at a concrete sleeping state. -/
theorem wake_on_press_witness :
    (checkInputs 9000 { idleInputs with center := true } baseRand
      { baseState with inSleepMode := true, fastSyncMode := true }).1.inSleepMode = false ∧
    (checkInputs 9000 { idleInputs with center := true } baseRand
      { baseState with inSleepMode := true, fastSyncMode := true }).1.lastUpdate = 9000 ∧
    (checkInputs 9000 { idleInputs with center := true } baseRand
      { baseState with inSleepMode := true, fastSyncMode := true }).1.currentPattern = 2 ∧
    (checkInputs 9000 { idleInputs with center := true } baseRand
      { baseState with inSleepMode := true, fastSyncMode := true }).1.colorPosition = 30 ∧
    9000 < (checkInputs 9000 { idleInputs with center := true } baseRand
      { baseState with inSleepMode := true, fastSyncMode := true }).1.nextBlinkTime := by
  have h := wake_on_press 9000 { idleInputs with center := true } baseRand
    { baseState with inSleepMode := true, fastSyncMode := true }
    rfl rfl rfl rfl rfl rfl rfl rfl rfl (by decide) (by decide) (by decide)
  exact ⟨h.1, h.2.1, h.2.2.2.2.2.2.2.1, h.2.2.2.2.2.2.2.2.1, h.2.2.2.2.2.2.1⟩

/-- C4 witness: a blinking state injected with phase 9 at 5000 ms is healed
within the single loop pass. -/
theorem blink_self_healing_witness :
    (loopTick 5000 idleInputs baseRand true true
      { baseState with isBlinking := true, blinkState := 9, lastButtonCheck := 4990 }).1.isBlinking = false ∧
    (loopTick 5000 idleInputs baseRand true true
      { baseState with isBlinking := true, blinkState := 9, lastButtonCheck := 4990 }).1.blinkState = 0 ∧
    (loopTick 5000 idleInputs baseRand true true
      { baseState with isBlinking := true, blinkState := 9, lastButtonCheck := 4990 }).1.blinkFadeBrightness_ = 1 ∧
    5000 < (loopTick 5000 idleInputs baseRand true true
      { baseState with isBlinking := true, blinkState := 9, lastButtonCheck := 4990 }).1.nextBlinkTime :=
  blink_self_healing 5000 idleInputs baseRand true true
    { baseState with isBlinking := true, blinkState := 9, lastButtonCheck := 4990 }
    (by decide) (by decide) (Or.inl (by decide)) (by decide) (by decide) (by decide)
    (by decide) (by decide) (by decide)

end Tiki
